import Mathlib

/-!
Shallow embedding of the MAD_CloudCare consent subsystem.

Part 1: the Aadhar identity-UID service
(`src/backend/app/services/aadhar_uid.py`): HMAC-SHA256 over byte lists,
hex digests, `validate_aadhar`, `generate_uid`, `verify_uid`.

Bytes are `Nat` values; 32-bit machine words are `Nat` with explicit
reduction modulo 2^32. Strings are Lean `String`s; `str.encode()` is
modelled for ASCII text as the list of code points.
-/

namespace CloudCare

/-- Truncate to a 32-bit word. -/
def w32 (n : Nat) : Nat := n % 4294967296

/-- Right-rotation of a 32-bit word by `n` bits. -/
def rotr32 (n w : Nat) : Nat := w32 (w / 2 ^ n + w % 2 ^ n * 2 ^ (32 - n))

/-- Logical right shift. -/
def shr32 (n w : Nat) : Nat := w / 2 ^ n

/-- SHA-256 Ch function. -/
def shaCh (e f g : Nat) : Nat := (e &&& f) ^^^ ((4294967295 ^^^ e) &&& g)

/-- SHA-256 Maj function. -/
def shaMaj (a b c : Nat) : Nat := (a &&& b) ^^^ (a &&& c) ^^^ (b &&& c)

/-- SHA-256 big sigma-0. -/
def bigS0 (a : Nat) : Nat := rotr32 2 a ^^^ rotr32 13 a ^^^ rotr32 22 a

/-- SHA-256 big sigma-1. -/
def bigS1 (e : Nat) : Nat := rotr32 6 e ^^^ rotr32 11 e ^^^ rotr32 25 e

/-- SHA-256 small sigma-0. -/
def smallS0 (x : Nat) : Nat := rotr32 7 x ^^^ rotr32 18 x ^^^ shr32 3 x

/-- SHA-256 small sigma-1. -/
def smallS1 (x : Nat) : Nat := rotr32 17 x ^^^ rotr32 19 x ^^^ shr32 10 x

/-- The 64 SHA-256 round constants (FIPS 180-4), in decimal. -/
def K256 : List Nat :=
  [1116352408, 1899447441, 3049323471, 3921009573, 961987163, 1508970993,
   2453635748, 2870763221, 3624381080, 310598401, 607225278, 1426881987,
   1925078388, 2162078206, 2614888103, 3248222580, 3835390401, 4022224774,
   264347078, 604807628, 770255983, 1249150122, 1555081692, 1996064986,
   2554220882, 2821834349, 2952996808, 3210313671, 3336571891, 3584528711,
   113926993, 338241895, 666307205, 773529912, 1294757372, 1396182291,
   1695183700, 1986661051, 2177026350, 2456956037, 2730485921, 2820302411,
   3259730800, 3345764771, 3516065817, 3600352804, 4094571909, 275423344,
   430227734, 506948616, 659060556, 883997877, 958139571, 1322822218,
   1537002063, 1747873779, 1955562222, 2024104815, 2227730452, 2361852424,
   2428436474, 2756734187, 3204031479, 3329325298]

/-- The eight SHA-256 chaining words. -/
structure Sha256St where
  h0 : Nat
  h1 : Nat
  h2 : Nat
  h3 : Nat
  h4 : Nat
  h5 : Nat
  h6 : Nat
  h7 : Nat
deriving Repr, DecidableEq

/-- SHA-256 initial hash value (FIPS 180-4), in decimal. -/
def sha256Init : Sha256St :=
  ⟨1779033703, 3144134277, 1013904242, 2773480762,
   1359893119, 2600822924, 528734635, 1541459225⟩

/-- The eight working registers of the compression loop. -/
structure Regs where
  a : Nat
  b : Nat
  c : Nat
  d : Nat
  e : Nat
  f : Nat
  g : Nat
  h : Nat
deriving Repr, DecidableEq

/-- One SHA-256 compression round; `kw` is the pair (round constant, schedule word). -/
def shaRound (r : Regs) (kw : Nat × Nat) : Regs :=
  let t1 := w32 (r.h + bigS1 r.e + shaCh r.e r.f r.g + kw.1 + kw.2)
  let t2 := w32 (bigS0 r.a + shaMaj r.a r.b r.c)
  ⟨w32 (t1 + t2), r.a, r.b, r.c, w32 (r.d + t1), r.e, r.f, r.g⟩

/-- Big-endian 4-byte group to a 32-bit word, one group at a time. -/
def bytesToWords : List Nat → List Nat
  | a :: b :: c :: d :: rest => (a * 16777216 + b * 65536 + c * 256 + d) :: bytesToWords rest
  | _ => []

/-- Extend the 16 block words to the 64-entry message schedule. -/
def extendW (ws : List Nat) : List Nat :=
  (List.range 48).foldl
    (fun acc _ =>
      let n := acc.length
      let nw := w32 (acc.getD (n - 16) 0 + smallS0 (acc.getD (n - 15) 0) +
                     acc.getD (n - 7) 0 + smallS1 (acc.getD (n - 2) 0))
      acc ++ [nw])
    ws

/-- Compress one 64-byte block into the chaining state. -/
def compressBlock (st : Sha256St) (block : List Nat) : Sha256St :=
  let ws := extendW (bytesToWords block)
  let r0 : Regs := ⟨st.h0, st.h1, st.h2, st.h3, st.h4, st.h5, st.h6, st.h7⟩
  let r := (K256.zip ws).foldl shaRound r0
  ⟨w32 (st.h0 + r.a), w32 (st.h1 + r.b), w32 (st.h2 + r.c), w32 (st.h3 + r.d),
   w32 (st.h4 + r.e), w32 (st.h5 + r.f), w32 (st.h6 + r.g), w32 (st.h7 + r.h)⟩

/-- The `k` bytes of `n`, big-endian. -/
def natToBytesBE : Nat → Nat → List Nat
  | 0, _ => []
  | k + 1, n => natToBytesBE k (n / 256) ++ [n % 256]

/-- SHA-256 padding: append 0x80, then the fewest zeros making the length
congruent to 56 mod 64, then the 64-bit big-endian bit length. -/
def shaPad (msg : List Nat) : List Nat :=
  let L := msg.length
  let zeros := (119 - L % 64) % 64
  msg ++ [128] ++ List.replicate zeros 0 ++ natToBytesBE 8 (8 * L)

/-- Split into 64-byte chunks. -/
def chunks64 (l : List Nat) : List (List Nat) :=
  if h : l = [] then []
  else
    have : (l.drop 64).length < l.length := by
      rw [List.length_drop]
      have : 0 < l.length := List.length_pos.mpr h
      omega
    l.take 64 :: chunks64 (l.drop 64)
termination_by l.length

/-- A 32-bit word as 4 big-endian bytes. -/
def wordBytesBE (w : Nat) : List Nat :=
  [w / 16777216 % 256, w / 65536 % 256, w / 256 % 256, w % 256]

/-- SHA-256 of a byte string, as 32 digest bytes. -/
def sha256Bytes (msg : List Nat) : List Nat :=
  let st := (chunks64 (shaPad msg)).foldl compressBlock sha256Init
  wordBytesBE st.h0 ++ wordBytesBE st.h1 ++ wordBytesBE st.h2 ++ wordBytesBE st.h3 ++
  wordBytesBE st.h4 ++ wordBytesBE st.h5 ++ wordBytesBE st.h6 ++ wordBytesBE st.h7

/-- HMAC-SHA256 (`hmac.new(key, msg, hashlib.sha256).digest()`): block size 64,
keys longer than the block are hashed first, inner pad 0x36, outer pad 0x5c. -/
def hmacSha256 (key msg : List Nat) : List Nat :=
  let k0 := if key.length > 64 then sha256Bytes key else key
  let kPad := k0 ++ List.replicate (64 - k0.length) 0
  let ipad := kPad.map (fun b => b ^^^ 54)
  let opad := kPad.map (fun b => b ^^^ 92)
  sha256Bytes (opad ++ sha256Bytes (ipad ++ msg))

/-- The sixteen lowercase hex digits. -/
def hexDigits : List Char := "0123456789abcdef".data

/-- A hex nibble character (lowercase, as Python `hexdigest`). -/
def hexChar (n : Nat) : Char := hexDigits.getD n '0'

/-- The two hex characters of one byte. -/
def byteHex (b : Nat) : List Char := [hexChar (b / 16), hexChar (b % 16)]

/-- Lowercase hex string of a byte list (`.hexdigest()`). -/
def hexOfBytes (bs : List Nat) : String := String.mk ((bs.map byteHex).flatten)

/-- Python `str.encode()` modelled for ASCII text: the code points as bytes. -/
def strBytes (s : String) : List Nat := s.data.map Char.toNat

/-- Python `aadhar_number.replace(" ", "").replace("-", "")`: both calls replace a
single character by the empty string, i.e. they drop every space and dash. -/
def stripSpacesDashes (s : String) : String :=
  String.mk (s.data.filter (fun c => !(c == ' ') && !(c == '-')))

/-- Python `str.isdigit()` modelled for ASCII text: non-empty and every
character a decimal digit. -/
def pyIsDigitStr (s : String) : Bool :=
  !s.data.isEmpty && s.data.all Char.isDigit

/-- Source `AadharUIDService.validate_aadhar`: strip spaces/dashes, then require
exactly 12 digits. -/
def validate_aadhar (aadhar_number : String) : Bool :=
  let clean := stripSpacesDashes aadhar_number
  pyIsDigitStr clean && clean.length == 12

/-- Source `AadharUIDService.generate_uid`: validate, strip, HMAC-SHA256 with the
process-wide key, hex digest. `none` models the `ValueError` raise. The key
is passed explicitly (the source reads it from process-wide settings). -/
def generate_uid (key : String) (aadhar_number : String) : Option String :=
  if validate_aadhar aadhar_number then
    let clean := stripSpacesDashes aadhar_number
    some (hexOfBytes (hmacSha256 (strBytes key) (strBytes clean)))
  else
    none

/-- Python `hmac.compare_digest` on strings: constant-time equality; modelled as
equality. -/
def compare_digest (a b : String) : Bool := a == b

/-- Source `AadharUIDService.verify_uid`: re-derive and compare; a `ValueError`
from `generate_uid` is caught and returns `False`. -/
def verify_uid (key aadhar_number uid : String) : Bool :=
  match generate_uid key aadhar_number with
  | some generated => compare_digest generated uid
  | none => false

/-- The claim-side shape predicate: a string of exactly 12 decimal digits. -/
def isTwelveDigitString (s : String) : Bool :=
  s.length == 12 && s.data.all Char.isDigit

/-- A lowercase hexadecimal character. -/
def isHexChar (c : Char) : Bool := hexDigits.contains c

theorem validate_aadhar_eq (s : String) :
    validate_aadhar s = isTwelveDigitString (stripSpacesDashes s) := by
  have key : ∀ l : List Char,
      ((!l.isEmpty && l.all Char.isDigit) && (l.length == 12)) =
      ((l.length == 12) && l.all Char.isDigit) := by
    intro l
    cases l with
    | nil => rfl
    | cons a t =>
      simp only [List.isEmpty_cons, Bool.not_false, Bool.true_and]
      exact Bool.and_comm _ _
  unfold validate_aadhar isTwelveDigitString pyIsDigitStr
  obtain ⟨l⟩ := stripSpacesDashes s
  exact key l

theorem length_hexOfBytes (bs : List Nat) : (hexOfBytes bs).length = 2 * bs.length := by
  show ((bs.map byteHex).flatten).length = 2 * bs.length
  induction bs with
  | nil => rfl
  | cons b t ih =>
    simp only [List.map_cons, List.flatten_cons, List.length_append, ih, byteHex,
      List.length_cons, List.length_nil, List.length_cons]
    omega

theorem sha256Bytes_length (m : List Nat) : (sha256Bytes m).length = 32 := by
  simp [sha256Bytes, wordBytesBE]

theorem hmacSha256_length (k m : List Nat) : (hmacSha256 k m).length = 32 := by
  unfold hmacSha256
  exact sha256Bytes_length _

theorem hexChar_isHex (n : Nat) : isHexChar (hexChar n) = true := by
  unfold hexChar
  by_cases h : n < hexDigits.length
  · have hm : hexDigits.getD n '0' ∈ hexDigits := by
      rw [List.getD_eq_getElem hexDigits '0' h]
      exact List.getElem_mem h
    simpa [isHexChar] using hm
  · rw [List.getD_eq_getElem?_getD, List.getElem?_eq_none (by omega)]
    decide

theorem hexOfBytes_all_hex (bs : List Nat) : (hexOfBytes bs).data.all isHexChar = true := by
  show ((bs.map byteHex).flatten).all isHexChar = true
  rw [List.all_eq_true]
  intro c hc
  rw [List.mem_flatten] at hc
  obtain ⟨l, hl, hcl⟩ := hc
  rw [List.mem_map] at hl
  obtain ⟨b, _, rfl⟩ := hl
  simp only [byteHex, List.mem_cons, List.not_mem_nil, or_false] at hcl
  rcases hcl with rfl | rfl
  · exact hexChar_isHex _
  · exact hexChar_isHex _

/-- C6: `generate_uid` fails (raises `ValueError`, modelled as `none`) exactly
for the inputs that do not normalize — after removing all spaces and dashes —
to a string of exactly 12 decimal digits, and succeeds on all others. -/
theorem generate_uid_rejects_iff_not_twelve_digits (key s : String) :
    generate_uid key s = none ↔ isTwelveDigitString (stripSpacesDashes s) = false := by
  unfold generate_uid
  rw [validate_aadhar_eq]
  cases h : isTwelveDigitString (stripSpacesDashes s) <;> simp [h]

/-- C7: for every secret that validates (normalizes to 12 digits), `generate_uid`
deterministically returns one fixed 64-character lowercase-hex uid, `verify_uid`
accepts exactly that uid and rejects every other string; for every malformed
secret, `verify_uid` rejects everything. -/
theorem uid_derive_verify_roundtrip (key s : String) :
    (validate_aadhar s = true →
      ∃ u, generate_uid key s = some u ∧
        u.length = 64 ∧
        u.data.all isHexChar = true ∧
        verify_uid key s u = true ∧
        ∀ u', u' ≠ u → verify_uid key s u' = false) ∧
    (validate_aadhar s = false → ∀ u, verify_uid key s u = false) := by
  constructor
  · intro hv
    refine ⟨hexOfBytes (hmacSha256 (strBytes key) (strBytes (stripSpacesDashes s))),
      ?_, ?_, ?_, ?_, ?_⟩
    · simp [generate_uid, hv]
    · rw [length_hexOfBytes, hmacSha256_length]
    · exact hexOfBytes_all_hex _
    · simp [verify_uid, generate_uid, hv, compare_digest]
    · intro u' hne
      simp only [verify_uid, generate_uid, hv, if_true, compare_digest]
      rw [beq_eq_false_iff_ne]
      exact fun h => hne h.symm
  · intro hv u
    simp [verify_uid, generate_uid, hv]

/-- Witness for C7 at the concrete secret "123456789012" (valid) and "12345"
(malformed), with key "server-key". -/
theorem uid_derive_verify_roundtrip_witness :
    (∃ u, generate_uid "server-key" "123456789012" = some u ∧
        u.length = 64 ∧
        u.data.all isHexChar = true ∧
        verify_uid "server-key" "123456789012" u = true ∧
        ∀ u', u' ≠ u → verify_uid "server-key" "123456789012" u' = false) ∧
    (∀ u, verify_uid "server-key" "12345" u = false) :=
  ⟨(uid_derive_verify_roundtrip "server-key" "123456789012").1 (by decide),
   (uid_derive_verify_roundtrip "server-key" "12345").2 (by decide)⟩

/-!
Part 2: the relational data model and the consent endpoints
(`src/backend/app/api/v1/consents.py`, `doctor.py`, `hospital.py`).

Rows are structures; the store is lists of rows in a `DB` record; Prisma
`find_unique` / `find_first` become `List.find?`, `create` appends a row with
a fresh id drawn from a counter, `update` maps over the list. Timestamps are
`Nat` seconds (`datetime.now()` is an explicit `now` argument;
`timedelta(days=d)` is `d * 86400`). `HTTPException` is an `ApiError` value in
`Except`; an error result carries no new state, matching the handler aborting
before any further writes.
-/

/-- A `raise HTTPException(status_code, detail)`. -/
inductive ApiError where
  | notFound (detail : String)
  | badRequest (detail : String)
deriving Repr, DecidableEq

structure Patient where
  id : Nat
  first_name : Option String
  middle_name : Option String
  last_name : Option String
  date_of_birth : Option (Nat × Nat × Nat)
  gender : Option String
  blood_group : Option String
  phone_primary : Option String
  aadhar_uid : String
deriving Repr, DecidableEq

structure Doctor where
  id : Nat
  title : String
  first_name : String
  last_name : String
  hospital_id : Option Nat
deriving Repr, DecidableEq

structure Hospital where
  id : Nat
  name : String
deriving Repr, DecidableEq

structure Consent where
  id : Nat
  patient_id : Nat
  facility_name : String
  request_type : String
  description : Option String
  status : String
  requested_at : Nat
  responded_at : Option Nat
  expires_at : Option Nat
deriving Repr, DecidableEq

structure DoctorPatient where
  id : Nat
  doctor_id : Nat
  patient_id : Nat
  status : String
  condition : Option String
  next_appointment : Option Nat
  last_visit : Option Nat
  emergency_flag : Bool
  assigned_at : Nat
deriving Repr, DecidableEq

structure Appointment where
  id : Nat
  patient_id : Nat
  doctor_id : Nat
  hospital_id : Nat
  date : Nat
  time : String
  type : String
  department : String
  reason : String
  status : String
deriving Repr, DecidableEq

/-- The relational store: one list per table plus a fresh-id counter
(modelling Prisma's generated ids). -/
structure DB where
  patients : List Patient
  doctors : List Doctor
  hospitals : List Hospital
  consents : List Consent
  doctorPatients : List DoctorPatient
  appointments : List Appointment
  nextId : Nat
deriving Repr, DecidableEq

/-- Body of `POST /consents/request`. -/
structure CreateConsentRequest where
  patient_id : Nat
  doctor_id : Nat
  facility_name : String
  request_type : String
  description : Option String
  expires_in_days : Nat
deriving Repr, DecidableEq

/-- Two-digit zero-padded decimal. -/
def twoDigit (n : Nat) : String :=
  if n < 10 then "0" ++ toString n else toString n

/-- Python `datetime.now().strftime("%H:%M")` over `Nat` seconds. -/
def strfHM (t : Nat) : String :=
  twoDigit (t / 3600 % 24) ++ ":" ++ twoDigit (t / 60 % 60)

/-- The doctor's full display name `f"{title} {first_name} {last_name}"`. -/
def doctorDisplayName (d : Doctor) : String :=
  d.title ++ " " ++ d.first_name ++ " " ++ d.last_name

/-- The facility name actually stored: the doctor's display name when the
supplied one is empty or the generic "Healthcare Professional". -/
def finalFacilityName (req : CreateConsentRequest) (doctor : Doctor) : String :=
  if req.facility_name == "" || req.facility_name == "Healthcare Professional" then
    doctorDisplayName doctor
  else
    req.facility_name

/-- Handler `create_consent_request` (`POST /consents/request`): verify patient and
doctor, default the facility name, return an existing PENDING duplicate
unchanged, otherwise create the consent and — if absent — a LOCKED
doctor-patient relationship. -/
def create_consent_request (db : DB) (now : Nat) (req : CreateConsentRequest) :
    Except ApiError (DB × Consent) :=
  match db.patients.find? (fun p => p.id == req.patient_id) with
  | none => .error (.notFound "Patient not found")
  | some _ =>
    match db.doctors.find? (fun d => d.id == req.doctor_id) with
    | none => .error (.notFound "Doctor not found")
    | some doctor =>
      let final := finalFacilityName req doctor
      match db.consents.find? (fun c =>
          c.patient_id == req.patient_id && c.facility_name == final &&
          c.status == "PENDING") with
      | some existing => .ok (db, existing)
      | none =>
        let consent : Consent :=
          { id := db.nextId, patient_id := req.patient_id, facility_name := final,
            request_type := req.request_type, description := req.description,
            status := "PENDING", requested_at := now, responded_at := none,
            expires_at := some (now + req.expires_in_days * 86400) }
        let db1 := { db with consents := db.consents ++ [consent], nextId := db.nextId + 1 }
        let db2 :=
          match db1.doctorPatients.find? (fun dp =>
              dp.doctor_id == req.doctor_id && dp.patient_id == req.patient_id) with
          | some _ => db1
          | none =>
            { db1 with
              doctorPatients := db1.doctorPatients ++
                [{ id := db1.nextId, doctor_id := req.doctor_id,
                   patient_id := req.patient_id, status := "LOCKED",
                   condition := some "Awaiting consent approval",
                   next_appointment := none, last_visit := none,
                   emergency_flag := false, assigned_at := now }],
              nextId := db1.nextId + 1 }
        .ok (db2, consent)

/-- The HOSPITAL_ADMISSION side effect of approving a consent: resolve the
hospital by facility name, skip if an IN_PROGRESS admission already exists for
the (patient, hospital) pair, pick any doctor of the hospital as attending,
and create the IN_PROGRESS ADMISSION appointment; every missing piece is
logged and skipped without failing the approval. -/
def admissionFanout (db : DB) (consent : Consent) (now : Nat) : DB :=
  match db.hospitals.find? (fun h => h.name == consent.facility_name) with
  | none => db
  | some hospital =>
    match db.appointments.find? (fun a =>
        a.patient_id == consent.patient_id && a.hospital_id == hospital.id &&
        a.status == "IN_PROGRESS") with
    | some _ => db
    | none =>
      match db.doctors.find? (fun d => d.hospital_id == some hospital.id) with
      | none => db
      | some doctor =>
        { db with
          appointments := db.appointments ++
            [{ id := db.nextId, patient_id := consent.patient_id,
               doctor_id := doctor.id, hospital_id := hospital.id, date := now,
               time := strfHM now, type := "ADMISSION", department := "General",
               reason := consent.description.getD "Hospital Admission",
               status := "IN_PROGRESS" }],
          nextId := db.nextId + 1 }

/-- Handler `update_consent_status` (`PATCH /consents/{consent_id}`): guard the
transition, write the new status and `responded_at`, then fan out — on
APPROVED run the admission side effect and flip every LOCKED relationship of
the patient to ACTIVE, on REVOKED flip every ACTIVE one back to LOCKED. -/
def update_consent_status (db : DB) (now : Nat) (consent_id : Nat) (newStatus : String) :
    Except ApiError (DB × Consent) :=
  match db.consents.find? (fun c => c.id == consent_id) with
  | none => .error (.notFound "Consent request not found")
  | some consent =>
    if consent.status != "PENDING" &&
        !(consent.status == "APPROVED" && newStatus == "REVOKED") then
      .error (.badRequest "Consent request already processed")
    else if !(["APPROVED", "DENIED", "REVOKED"].contains newStatus) then
      .error (.badRequest "Status must be APPROVED, DENIED, or REVOKED")
    else
      let updated := { consent with status := newStatus, responded_at := some now }
      let db1 := { db with
        consents := db.consents.map (fun c => if c.id == consent_id then updated else c) }
      if newStatus == "APPROVED" then
        let db2 :=
          if consent.request_type == "HOSPITAL_ADMISSION" then
            admissionFanout db1 consent now
          else db1
        let db3 := { db2 with
          doctorPatients := db2.doctorPatients.map (fun dp =>
            if dp.patient_id == consent.patient_id && dp.status == "LOCKED" then
              { dp with status := "ACTIVE", condition := some "Access granted" }
            else dp) }
        .ok (db3, updated)
      else if newStatus == "REVOKED" then
        let db3 := { db1 with
          doctorPatients := db1.doctorPatients.map (fun dp =>
            if dp.patient_id == consent.patient_id && dp.status == "ACTIVE" then
              { dp with status := "LOCKED", condition := some "Access revoked" }
            else dp) }
        .ok (db3, updated)
      else
        .ok (db1, updated)

/-- Result body of `POST /hospitals/{hospital_id}/admit`. -/
structure AdmitResult where
  success : Bool
  message : String
  consent_id : Nat
deriving Repr, DecidableEq

/-- Handler `admit_patient` (`POST /hospitals/{hospital_id}/admit`): find the hospital,
derive the uid from the Aadhar number, find the patient by uid, return an
already-PENDING HOSPITAL_ADMISSION consent for this (patient, hospital) if one
exists, otherwise create one with a 1-day expiry. -/
def admit_patient (db : DB) (now : Nat) (key : String) (hospital_id : Nat)
    (aadhar_number : String) (reason : String) :
    Except ApiError (DB × AdmitResult) :=
  match db.hospitals.find? (fun h => h.id == hospital_id) with
  | none => .error (.notFound "Hospital not found")
  | some hospital =>
    match generate_uid key aadhar_number with
    | none => .error (.badRequest "Invalid Aadhar number")
    | some uid =>
      match db.patients.find? (fun p => p.aadhar_uid == uid) with
      | none => .error (.notFound "Patient not found with this Aadhar")
      | some patient =>
        match db.consents.find? (fun c =>
            c.patient_id == patient.id && c.facility_name == hospital.name &&
            c.request_type == "HOSPITAL_ADMISSION" && c.status == "PENDING") with
        | some existing =>
          .ok (db, { success := true, message := "Admission request already pending",
                     consent_id := existing.id })
        | none =>
          let consent : Consent :=
            { id := db.nextId, patient_id := patient.id,
              facility_name := hospital.name, request_type := "HOSPITAL_ADMISSION",
              description := some ("Request for admission at " ++ hospital.name ++
                ": " ++ reason),
              status := "PENDING", requested_at := now, responded_at := none,
              expires_at := some (now + 1 * 86400) }
          let db1 :=
            { db with consents := db.consents ++ [consent], nextId := db.nextId + 1 }
          .ok (db1, { success := true, message := "Admission request sent to patient",
                      consent_id := consent.id })

/-- One row of `GET /doctors/{doctor_id}/patients`. -/
structure DoctorPatientResponse where
  id : Nat
  patient_id : Nat
  patient_name : String
  status : String
  condition : String
  next_appointment : Option Nat
  last_visit : Option Nat
  emergency_flag : Bool
  assigned_at : Nat
  access_granted : Bool
  patient_age : Option Int
  patient_gender : Option String
  patient_blood_group : Option String
  patient_phone : Option String
deriving Repr, DecidableEq

/-- Python `x or default` on an optional string: `None` and `""` are falsy. -/
def pyOrStr (o : Option String) (d : String) : String :=
  match o with
  | some s => if s == "" then d else s
  | none => d

/-- A name part contributes when present and non-empty (`if patient.first_name:`). -/
def optNamePart (o : Option String) : List String :=
  match o with
  | some s => if s == "" then [] else [s]
  | none => []

/-- Python tuple comparison `(m1, d1) < (m2, d2)`: lexicographic. -/
def tupleLtMD (m1 d1 m2 d2 : Nat) : Bool :=
  m1 < m2 || (m1 == m2 && d1 < d2)

/-- Python `today.year - dob.year - ((today.month, today.day) < (dob.month, dob.day))`
with the boolean coerced to 0/1; dates are (year, month, day). -/
def computeAge (today dob : Nat × Nat × Nat) : Int :=
  (today.1 : Int) - (dob.1 : Int) -
    (if tupleLtMD today.2.1 today.2.2 dob.2.1 dob.2.2 then 1 else 0)

/-- The name parts present on the patient record, in first/middle/last order. -/
def nameParts (p : Patient) : List String :=
  optNamePart p.first_name ++ optNamePart p.middle_name ++ optNamePart p.last_name

/-- One response row built from a relationship: base fields always, detailed
clinical fields only when the relationship status is ACTIVE. -/
def buildPatientRow (db : DB) (today : Nat × Nat × Nat) (rel : DoctorPatient) :
    DoctorPatientResponse :=
  let patientOpt := db.patients.find? (fun p => p.id == rel.patient_id)
  let access_granted := rel.status == "ACTIVE"
  let age : Option Int :=
    match patientOpt with
    | some p => p.date_of_birth.map (fun dob => computeAge today dob)
    | none => none
  let parts :=
    match patientOpt with
    | some p => nameParts p
    | none => []
  let full_name := if parts.isEmpty then "Unknown Patient" else String.intercalate " " parts
  let base : DoctorPatientResponse :=
    { id := rel.id, patient_id := rel.patient_id, patient_name := full_name,
      status := rel.status, condition := pyOrStr rel.condition "No condition specified",
      next_appointment := rel.next_appointment, last_visit := rel.last_visit,
      emergency_flag := rel.emergency_flag, assigned_at := rel.assigned_at,
      access_granted := access_granted, patient_age := none, patient_gender := none,
      patient_blood_group := none, patient_phone := none }
  if access_granted then
    match patientOpt with
    | some p =>
      { base with patient_age := age, patient_gender := p.gender,
                  patient_blood_group := p.blood_group, patient_phone := p.phone_primary }
    | none => base
  else base

/-- Handler `get_doctor_patients` (`GET /doctors/{doctor_id}/patients`): the doctor's
relationships, newest-assigned first, projected through `buildPatientRow`. -/
def get_doctor_patients (db : DB) (today : Nat × Nat × Nat) (doctor_id : Nat) :
    List DoctorPatientResponse :=
  ((db.doctorPatients.filter (fun dp => dp.doctor_id == doctor_id)).insertionSort
      (fun a b => b.assigned_at ≤ a.assigned_at)).map (buildPatientRow db today)

/-!
Theorems about the consent endpoints.
-/

/-- C10: a successful `POST /consents/request` returns (and, when it creates a
row, stores) the consent under the doctor's full display name
"{title} {first_name} {last_name}" whenever the supplied facility name is
empty or exactly "Healthcare Professional", and under the supplied name
verbatim otherwise; the PENDING-duplicate lookup is keyed by that same
resolved name. -/
theorem create_consent_facility_name_default
    (db : DB) (now : Nat) (req : CreateConsentRequest) (doctor : Doctor)
    (db' : DB) (c : Consent)
    (hdoc : db.doctors.find? (fun d => d.id == req.doctor_id) = some doctor)
    (hok : create_consent_request db now req = .ok (db', c)) :
    c.facility_name =
      (if req.facility_name == "" || req.facility_name == "Healthcare Professional" then
        doctor.title ++ " " ++ doctor.first_name ++ " " ++ doctor.last_name
      else req.facility_name) ∧
    (db.consents.find? (fun x => x.patient_id == req.patient_id &&
        x.facility_name == finalFacilityName req doctor && x.status == "PENDING") = none →
      db'.consents = db.consents ++ [c]) ∧
    (∀ e, db.consents.find? (fun x => x.patient_id == req.patient_id &&
        x.facility_name == finalFacilityName req doctor && x.status == "PENDING") = some e →
      c = e ∧ db' = db) := by
  unfold create_consent_request at hok
  cases hp : db.patients.find? (fun p => p.id == req.patient_id) with
  | none => simp [hp] at hok
  | some p =>
    simp only [hp, hdoc] at hok
    cases hdup : db.consents.find? (fun x => x.patient_id == req.patient_id &&
        x.facility_name == finalFacilityName req doctor && x.status == "PENDING") with
    | some e =>
      simp only [hdup, Except.ok.injEq, Prod.mk.injEq] at hok
      obtain ⟨rfl, rfl⟩ := hok
      refine ⟨?_, ?_, ?_⟩
      · have h1 := List.find?_some hdup
        simp only [Bool.and_eq_true, beq_iff_eq] at h1
        rw [h1.1.2]
        rfl
      · intro h
        cases h
      · intro e' he'
        injection he' with h
        exact ⟨h, rfl⟩
    | none =>
      simp only [hdup, Except.ok.injEq, Prod.mk.injEq] at hok
      obtain ⟨hdb, rfl⟩ := hok
      refine ⟨rfl, ?_, ?_⟩
      · intro _
        subst hdb
        cases hrel : db.doctorPatients.find? (fun dp =>
            dp.doctor_id == req.doctor_id && dp.patient_id == req.patient_id) with
        | some _ => simp [hrel]
        | none => simp [hrel]
      · intro e' he'
        cases he'

/-- Sample patient used by the witness databases. -/
def samplePatient : Patient :=
  { id := 1, first_name := some "Priya", middle_name := none, last_name := some "Shah",
    date_of_birth := some (1990, 6, 15), gender := some "F", blood_group := some "O+",
    phone_primary := some "9999999999", aadhar_uid := "uid-1" }

/-- Sample doctor used by the witness databases. -/
def sampleDoctor : Doctor :=
  { id := 2, title := "Dr.", first_name := "Asha", last_name := "Rao", hospital_id := none }

/-- Witness database for C10: one patient, one doctor, empty ledger. -/
def dbW10 : DB :=
  { patients := [samplePatient], doctors := [sampleDoctor], hospitals := [],
    consents := [], doctorPatients := [], appointments := [], nextId := 10 }

/-- Witness request for C10: the generic facility name is supplied. -/
def reqW10 : CreateConsentRequest :=
  { patient_id := 1, doctor_id := 2, facility_name := "Healthcare Professional",
    request_type := "DATA_ACCESS", description := some "d", expires_in_days := 90 }

/-- The consent row C10's witness call creates. -/
def cW10 : Consent :=
  { id := 10, patient_id := 1, facility_name := "Dr. Asha Rao",
    request_type := "DATA_ACCESS", description := some "d", status := "PENDING",
    requested_at := 0, responded_at := none, expires_at := some 7776000 }

/-- The LOCKED relationship row C10's witness call creates. -/
def dpW10 : DoctorPatient :=
  { id := 11, doctor_id := 2, patient_id := 1, status := "LOCKED",
    condition := some "Awaiting consent approval", next_appointment := none,
    last_visit := none, emergency_flag := false, assigned_at := 0 }

/-- The database state after C10's witness call. -/
def dbW10' : DB :=
  { patients := [samplePatient], doctors := [sampleDoctor], hospitals := [],
    consents := [cW10], doctorPatients := [dpW10], appointments := [], nextId := 12 }

instance {ε α : Type} [DecidableEq ε] [DecidableEq α] : DecidableEq (Except ε α) :=
  fun x y =>
    match x, y with
    | .ok a, .ok b =>
      if h : a = b then .isTrue (by rw [h]) else .isFalse (by intro hc; cases hc; exact h rfl)
    | .error a, .error b =>
      if h : a = b then .isTrue (by rw [h]) else .isFalse (by intro hc; cases hc; exact h rfl)
    | .ok _, .error _ => .isFalse (by intro hc; cases hc)
    | .error _, .ok _ => .isFalse (by intro hc; cases hc)

/-- Witness for C10: a request supplying "Healthcare Professional" is stored
under the doctor's display name "Dr. Asha Rao". -/
theorem create_consent_facility_name_default_witness :
    cW10.facility_name =
      (if reqW10.facility_name == "" || reqW10.facility_name == "Healthcare Professional" then
        sampleDoctor.title ++ " " ++ sampleDoctor.first_name ++ " " ++ sampleDoctor.last_name
      else reqW10.facility_name) :=
  (create_consent_facility_name_default dbW10 0 reqW10 sampleDoctor dbW10' cW10
    (by decide) (by decide)).1

/-- The consent row `create_consent_request` inserts on the non-duplicate path
(named for reuse in statements; identical to the literal in the definition). -/
def newConsentRow (db : DB) (now : Nat) (req : CreateConsentRequest) (doctor : Doctor) : Consent :=
  { id := db.nextId, patient_id := req.patient_id, facility_name := finalFacilityName req doctor,
    request_type := req.request_type, description := req.description, status := "PENDING",
    requested_at := now, responded_at := none,
    expires_at := some (now + req.expires_in_days * 86400) }

/-- C4: when patient and doctor exist and no PENDING request for the resolved
(patient, facility) key exists yet, submitting the same request twice returns
the same consent (same id) both times as a success: the first call appends
exactly one PENDING row and the second call changes nothing. -/
theorem create_consent_request_idempotent_pending
    (db : DB) (now1 now2 : Nat) (req : CreateConsentRequest)
    (patient : Patient) (doctor : Doctor)
    (hp : db.patients.find? (fun p => p.id == req.patient_id) = some patient)
    (hd : db.doctors.find? (fun d => d.id == req.doctor_id) = some doctor)
    (hdup : db.consents.find? (fun c => c.patient_id == req.patient_id &&
        c.facility_name == finalFacilityName req doctor && c.status == "PENDING") = none) :
    ∃ db1 c1, create_consent_request db now1 req = .ok (db1, c1) ∧
      c1.status = "PENDING" ∧
      db1.consents = db.consents ++ [c1] ∧
      create_consent_request db1 now2 req = .ok (db1, c1) := by
  have hkey : (newConsentRow db now1 req doctor).patient_id == req.patient_id &&
      (newConsentRow db now1 req doctor).facility_name == finalFacilityName req doctor &&
      (newConsentRow db now1 req doctor).status == "PENDING" := by
    simp [newConsentRow]
  have h1 : ∃ db1, create_consent_request db now1 req = .ok (db1, newConsentRow db now1 req doctor) ∧
      db1.patients = db.patients ∧ db1.doctors = db.doctors ∧
      db1.consents = db.consents ++ [newConsentRow db now1 req doctor] := by
    unfold create_consent_request
    simp only [hp, hd, hdup]
    cases hrel : db.doctorPatients.find? (fun dp =>
        dp.doctor_id == req.doctor_id && dp.patient_id == req.patient_id) with
    | some dp0 => exact ⟨_, rfl, rfl, rfl, rfl⟩
    | none => exact ⟨_, rfl, rfl, rfl, rfl⟩
  obtain ⟨db1, hfirst, hpat1, hdoc1, hcons1⟩ := h1
  refine ⟨db1, newConsentRow db now1 req doctor, hfirst, rfl, hcons1, ?_⟩
  unfold create_consent_request
  simp only [hpat1, hdoc1, hcons1, hp, hd, List.find?_append, hdup, Option.none_or,
    List.find?_singleton, hkey, if_true]

/-- Witness for C4, at the concrete one-patient/one-doctor database. -/
theorem create_consent_request_idempotent_pending_witness :
    ∃ db1 c1, create_consent_request dbW10 0 reqW10 = .ok (db1, c1) ∧
      c1.status = "PENDING" ∧
      db1.consents = dbW10.consents ++ [c1] ∧
      create_consent_request db1 5 reqW10 = .ok (db1, c1) :=
  create_consent_request_idempotent_pending dbW10 0 5 reqW10 samplePatient sampleDoctor
    (by decide) (by decide) (by decide)

/-- The duplicate PENDING consent already present in C3's counterexample
database, keyed by the doctor's display name. -/
def cDupC3 : Consent :=
  { id := 7, patient_id := 1, facility_name := "Dr. Asha Rao",
    request_type := "DATA_ACCESS", description := none, status := "PENDING",
    requested_at := 0, responded_at := none, expires_at := none }

/-- C3's counterexample database: the PENDING consent exists but no
doctor-patient relationship does. -/
def dbC3 : DB :=
  { patients := [samplePatient], doctors := [sampleDoctor], hospitals := [],
    consents := [cDupC3], doctorPatients := [], appointments := [], nextId := 20 }

/-- C3's request: same patient and resolved facility key as the pending row. -/
def reqC3 : CreateConsentRequest :=
  { patient_id := 1, doctor_id := 2, facility_name := "Healthcare Professional",
    request_type := "DATA_ACCESS", description := some "x", expires_in_days := 90 }

/-- Counterexample to C3: the call succeeds (patient and doctor exist) by
returning the already-PENDING duplicate, yet afterwards no CareRelationship
row for (doctor 2, patient 1) exists — the duplicate path returns before the
relationship-creation step. -/
theorem create_consent_duplicate_skips_relationship :
    create_consent_request dbC3 0 reqC3 = .ok (dbC3, cDupC3) ∧
    dbC3.doctorPatients.find? (fun dp =>
      dp.doctor_id == reqC3.doctor_id && dp.patient_id == reqC3.patient_id) = none :=
  ⟨by decide, by decide⟩

/-- The LOCKED relationship row `create_consent_request` inserts when none
exists (named for reuse in statements; identical to the literal in the
definition — the id is drawn after the consent row's). -/
def newRelationshipRow (db : DB) (now : Nat) (req : CreateConsentRequest) : DoctorPatient :=
  { id := db.nextId + 1, doctor_id := req.doctor_id, patient_id := req.patient_id,
    status := "LOCKED", condition := some "Awaiting consent approval",
    next_appointment := none, last_visit := none, emergency_flag := false,
    assigned_at := now }

/-- C3 as amended: after a successful requestAccess call that creates a new
ConsentRequest (no PENDING duplicate existed for the resolved key), a
CareRelationship row for (doctor_id, patient_id) exists — created with status
LOCKED when absent before, left as-is when already present; a call answered by
an existing PENDING duplicate leaves the relationship table unchanged (and
creates no row). -/
theorem create_consent_relationship_on_new
    (db : DB) (now : Nat) (req : CreateConsentRequest) (doctor : Doctor)
    (db' : DB) (c : Consent)
    (hd : db.doctors.find? (fun d => d.id == req.doctor_id) = some doctor)
    (hok : create_consent_request db now req = .ok (db', c)) :
    (db.consents.find? (fun x => x.patient_id == req.patient_id &&
        x.facility_name == finalFacilityName req doctor && x.status == "PENDING") = none →
      (db.doctorPatients.find? (fun dp => dp.doctor_id == req.doctor_id &&
          dp.patient_id == req.patient_id) = none →
        db'.doctorPatients = db.doctorPatients ++ [newRelationshipRow db now req]) ∧
      (∀ dp0, db.doctorPatients.find? (fun dp => dp.doctor_id == req.doctor_id &&
          dp.patient_id == req.patient_id) = some dp0 →
        db'.doctorPatients = db.doctorPatients) ∧
      (∃ dp ∈ db'.doctorPatients, dp.doctor_id = req.doctor_id ∧
        dp.patient_id = req.patient_id)) ∧
    (∀ e, db.consents.find? (fun x => x.patient_id == req.patient_id &&
        x.facility_name == finalFacilityName req doctor && x.status == "PENDING") = some e →
      db'.doctorPatients = db.doctorPatients) := by
  unfold create_consent_request at hok
  cases hp : db.patients.find? (fun p => p.id == req.patient_id) with
  | none => simp [hp] at hok
  | some p =>
    simp only [hp, hd] at hok
    cases hdup : db.consents.find? (fun x => x.patient_id == req.patient_id &&
        x.facility_name == finalFacilityName req doctor && x.status == "PENDING") with
    | some e =>
      simp only [hdup, Except.ok.injEq, Prod.mk.injEq] at hok
      obtain ⟨rfl, rfl⟩ := hok
      constructor
      · intro h
        cases h
      · intro e' he'
        rfl
    | none =>
      simp only [hdup, Except.ok.injEq, Prod.mk.injEq] at hok
      obtain ⟨hdb, rfl⟩ := hok
      constructor
      · intro _
        subst hdb
        cases hrel : db.doctorPatients.find? (fun dp => dp.doctor_id == req.doctor_id &&
            dp.patient_id == req.patient_id) with
        | some dp0 =>
          dsimp only
          have hmem := List.mem_of_find?_eq_some hrel
          have hpred := List.find?_some hrel
          simp only [Bool.and_eq_true, beq_iff_eq] at hpred
          refine ⟨?_, ?_, ?_⟩
          · intro h
            cases h
          · intro dp1 _
            rfl
          · exact ⟨dp0, hmem, hpred.1, hpred.2⟩
        | none =>
          dsimp only
          refine ⟨?_, ?_, ?_⟩
          · intro _
            rfl
          · intro dp1 h1
            cases h1
          · refine ⟨newRelationshipRow db now req, ?_, rfl, rfl⟩
            simp [newRelationshipRow]
      · intro e' he'
        cases he'

/-- Witness for C3's amended theorem: in the fresh database the call creates
both the consent and the LOCKED relationship row. -/
theorem create_consent_relationship_on_new_witness :
    dbW10'.doctorPatients = dbW10.doctorPatients ++ [newRelationshipRow dbW10 0 reqW10] :=
  ((create_consent_relationship_on_new dbW10 0 reqW10 sampleDoctor dbW10' cW10
    (by decide) (by decide)).1 (by decide)).1 (by decide)

theorem admissionFanout_preserves (db : DB) (c : Consent) (now : Nat) :
    (admissionFanout db c now).patients = db.patients ∧
    (admissionFanout db c now).doctors = db.doctors ∧
    (admissionFanout db c now).hospitals = db.hospitals ∧
    (admissionFanout db c now).consents = db.consents ∧
    (admissionFanout db c now).doctorPatients = db.doctorPatients := by
  unfold admissionFanout
  cases h1 : db.hospitals.find? (fun h => h.name == c.facility_name) with
  | none => exact ⟨rfl, rfl, rfl, rfl, rfl⟩
  | some hospital =>
    dsimp only
    cases h2 : db.appointments.find? (fun a => a.patient_id == c.patient_id &&
        a.hospital_id == hospital.id && a.status == "IN_PROGRESS") with
    | some _ => exact ⟨rfl, rfl, rfl, rfl, rfl⟩
    | none =>
      dsimp only
      cases h3 : db.doctors.find? (fun d => d.hospital_id == some hospital.id) with
      | none => exact ⟨rfl, rfl, rfl, rfl, rfl⟩
      | some doctor => exact ⟨rfl, rfl, rfl, rfl, rfl⟩

/-- C1: whenever `PATCH /consents/{id}` succeeds, setting the status to
APPROVED flips every LOCKED CareRelationship row of the consent's patient to
ACTIVE (regardless of requester) and leaves all other rows as they are;
setting it to REVOKED flips every ACTIVE row of that patient back to LOCKED;
setting it to DENIED changes no relationship row. -/
theorem update_consent_relationship_fanout
    (db : DB) (now consent_id : Nat) (newStatus : String) (db' : DB) (c' : Consent)
    (hok : update_consent_status db now consent_id newStatus = .ok (db', c')) :
    (newStatus = "APPROVED" →
      db'.doctorPatients = db.doctorPatients.map (fun dp =>
        if dp.patient_id == c'.patient_id && dp.status == "LOCKED" then
          { dp with status := "ACTIVE", condition := some "Access granted" }
        else dp)) ∧
    (newStatus = "REVOKED" →
      db'.doctorPatients = db.doctorPatients.map (fun dp =>
        if dp.patient_id == c'.patient_id && dp.status == "ACTIVE" then
          { dp with status := "LOCKED", condition := some "Access revoked" }
        else dp)) ∧
    (newStatus = "DENIED" → db'.doctorPatients = db.doctorPatients) := by
  unfold update_consent_status at hok
  cases hfind : db.consents.find? (fun c => c.id == consent_id) with
  | none => simp [hfind] at hok
  | some consent =>
    simp only [hfind] at hok
    split at hok
    · cases hok
    · split at hok
      · cases hok
      · split at hok
        · -- newStatus == "APPROVED"
          rename_i hApp
          simp only [Except.ok.injEq, Prod.mk.injEq] at hok
          obtain ⟨hdb, hc⟩ := hok
          subst hdb
          subst hc
          have hAppEq : newStatus = "APPROVED" := by
            exact beq_iff_eq.mp hApp
          refine ⟨?_, ?_, ?_⟩
          · intro _
            dsimp only
            by_cases hT : (consent.request_type == "HOSPITAL_ADMISSION") = true
            · rw [if_pos hT]
              rw [(admissionFanout_preserves _ consent now).2.2.2.2]
            · rw [if_neg hT]
          · intro h
            rw [h] at hAppEq
            exact absurd hAppEq (by decide)
          · intro h
            rw [h] at hAppEq
            exact absurd hAppEq (by decide)
        · split at hok
          · -- newStatus == "REVOKED"
            rename_i hApp hRev
            simp only [Except.ok.injEq, Prod.mk.injEq] at hok
            obtain ⟨hdb, hc⟩ := hok
            subst hdb
            subst hc
            have hRevEq : newStatus = "REVOKED" := beq_iff_eq.mp hRev
            refine ⟨?_, ?_, ?_⟩
            · intro h
              rw [h] at hRevEq
              exact absurd hRevEq (by decide)
            · intro _
              dsimp only
            · intro h
              rw [h] at hRevEq
              exact absurd hRevEq (by decide)
          · -- other status (DENIED among them)
            rename_i hApp hRev
            simp only [Except.ok.injEq, Prod.mk.injEq] at hok
            obtain ⟨hdb, hc⟩ := hok
            subst hdb
            subst hc
            refine ⟨?_, ?_, ?_⟩
            · intro h
              rw [h] at hApp
              simp at hApp
            · intro h
              rw [h] at hRev
              simp at hRev
            · intro _
              rfl

/-- PENDING data-access consent of patient 1 used by C1/C2 witnesses. -/
def cW1 : Consent :=
  { id := 1, patient_id := 1, facility_name := "Dr. Asha Rao",
    request_type := "DATA_ACCESS", description := none, status := "PENDING",
    requested_at := 0, responded_at := none, expires_at := none }

/-- A LOCKED relationship of patient 1 (doctor 2). -/
def dpW1a : DoctorPatient :=
  { id := 3, doctor_id := 2, patient_id := 1, status := "LOCKED",
    condition := some "Awaiting consent approval", next_appointment := none,
    last_visit := none, emergency_flag := false, assigned_at := 0 }

/-- An ACTIVE relationship of patient 1 (another doctor, 9). -/
def dpW1b : DoctorPatient :=
  { id := 4, doctor_id := 9, patient_id := 1, status := "ACTIVE",
    condition := none, next_appointment := none, last_visit := none,
    emergency_flag := false, assigned_at := 0 }

/-- C1's witness database: one PENDING consent, one LOCKED and one ACTIVE
relationship for the same patient. -/
def dbW1 : DB :=
  { patients := [samplePatient], doctors := [sampleDoctor], hospitals := [],
    consents := [cW1], doctorPatients := [dpW1a, dpW1b], appointments := [],
    nextId := 50 }

/-- The consent row after C1's witness approves it. -/
def cW1ap : Consent := { cW1 with status := "APPROVED", responded_at := some 5 }

/-- The database after C1's witness approval: the LOCKED row became ACTIVE. -/
def dbW1' : DB :=
  { dbW1 with
    consents := [cW1ap],
    doctorPatients := [{ dpW1a with status := "ACTIVE", condition := some "Access granted" },
                       dpW1b] }

/-- Witness for C1: approving the PENDING consent flips exactly the LOCKED
relationship of patient 1 to ACTIVE. -/
theorem update_consent_relationship_fanout_witness :
    dbW1'.doctorPatients = dbW1.doctorPatients.map (fun dp =>
      if dp.patient_id == cW1ap.patient_id && dp.status == "LOCKED" then
        { dp with status := "ACTIVE", condition := some "Access granted" }
      else dp) :=
  (update_consent_relationship_fanout dbW1 5 1 "APPROVED" dbW1' cW1ap (by decide)).1 rfl

/-- C2's counterexample database: the single consent is still PENDING. -/
def dbC2 : DB :=
  { patients := [samplePatient], doctors := [sampleDoctor], hospitals := [],
    consents := [cW1], doctorPatients := [], appointments := [], nextId := 60 }

/-- The consent row after the PENDING one is revoked. -/
def cW1rev : Consent := { cW1 with status := "REVOKED", responded_at := some 5 }

/-- Counterexample to C2: revoking a consent whose current status is PENDING
succeeds (the guard only rejects non-PENDING rows other than
APPROVED-to-REVOKED), instead of failing with the invalid-transition error the
claim predicts. -/
theorem revoke_pending_succeeds :
    cW1.status = "PENDING" ∧
    update_consent_status dbC2 5 1 "REVOKED" = .ok ({ dbC2 with consents := [cW1rev] }, cW1rev) :=
  ⟨rfl, by decide⟩

/-- C2 as amended: responding with REVOKED succeeds when the current status is
APPROVED — and also when it is still PENDING — and fails with the
invalid-transition client error (leaving the stored rows unchanged, since the
handler aborts) exactly when the current status is DENIED or REVOKED. -/
theorem revoke_transition_rule
    (db : DB) (now consent_id : Nat) (consent : Consent)
    (hfind : db.consents.find? (fun c => c.id == consent_id) = some consent) :
    ((consent.status = "PENDING" ∨ consent.status = "APPROVED") →
      ∃ db', update_consent_status db now consent_id "REVOKED" =
        .ok (db', { consent with status := "REVOKED", responded_at := some now })) ∧
    ((consent.status = "DENIED" ∨ consent.status = "REVOKED") →
      update_consent_status db now consent_id "REVOKED" =
        .error (.badRequest "Consent request already processed")) := by
  constructor
  · intro h
    rcases h with h | h <;>
      · simp [update_consent_status, hfind, h]
  · intro h
    rcases h with h | h <;>
      · simp [update_consent_status, hfind, h]

/-- A DENIED consent row, for C2's witness. -/
def cC2d : Consent :=
  { id := 2, patient_id := 1, facility_name := "Dr. Asha Rao",
    request_type := "DATA_ACCESS", description := none, status := "DENIED",
    requested_at := 0, responded_at := none, expires_at := none }

/-- C2's second witness database: the consent is DENIED. -/
def dbC2d : DB := { dbC2 with consents := [cC2d] }

/-- Witness for C2's amended theorem: revoking the PENDING consent succeeds,
revoking the DENIED one fails with the client error. -/
theorem revoke_transition_rule_witness :
    (∃ db', update_consent_status dbC2 5 1 "REVOKED" =
      .ok (db', { cW1 with status := "REVOKED", responded_at := some 5 })) ∧
    update_consent_status dbC2d 5 2 "REVOKED" =
      .error (.badRequest "Consent request already processed") :=
  ⟨(revoke_transition_rule dbC2 5 1 cW1 (by decide)).1 (Or.inl rfl),
   (revoke_transition_rule dbC2d 5 2 cC2d (by decide)).2 (Or.inl rfl)⟩

/-- The HOSPITAL_ADMISSION consent row `admit_patient` inserts (named for
reuse in statements; identical to the literal in the definition). -/
def admissionConsentRow (db : DB) (now : Nat) (hospital : Hospital)
    (patient : Patient) (reason : String) : Consent :=
  { id := db.nextId, patient_id := patient.id, facility_name := hospital.name,
    request_type := "HOSPITAL_ADMISSION",
    description := some ("Request for admission at " ++ hospital.name ++ ": " ++ reason),
    status := "PENDING", requested_at := now, responded_at := none,
    expires_at := some (now + 1 * 86400) }

/-- The database state after `admit_patient` creates a new admission consent:
the one new row appended and the id counter advanced. -/
def dbAfterAdmit (db : DB) (now : Nat) (hospital : Hospital) (patient : Patient)
    (reason : String) : DB :=
  { db with
    consents := db.consents ++ [admissionConsentRow db now hospital patient reason],
    nextId := db.nextId + 1 }

/-- C8: `POST /hospitals/{id}/admit` with an existing hospital and a secret
resolving to an existing patient returns the already-PENDING
HOSPITAL_ADMISSION consent for (patient, hospital name) when one exists —
creating nothing — and otherwise creates exactly one new PENDING
HOSPITAL_ADMISSION consent under the hospital's name expiring one day
(86400 s) after the request time, not the 90-day data-access default. -/
theorem admit_patient_pending_or_one_day
    (db : DB) (now : Nat) (key : String) (hospital_id : Nat) (aadhar reason : String)
    (hospital : Hospital) (patient : Patient) (uid : String)
    (hh : db.hospitals.find? (fun h => h.id == hospital_id) = some hospital)
    (hu : generate_uid key aadhar = some uid)
    (hpa : db.patients.find? (fun p => p.aadhar_uid == uid) = some patient) :
    (∀ e, db.consents.find? (fun c => c.patient_id == patient.id &&
        c.facility_name == hospital.name && c.request_type == "HOSPITAL_ADMISSION" &&
        c.status == "PENDING") = some e →
      admit_patient db now key hospital_id aadhar reason =
        .ok (db, { success := true, message := "Admission request already pending",
                   consent_id := e.id })) ∧
    (db.consents.find? (fun c => c.patient_id == patient.id &&
        c.facility_name == hospital.name && c.request_type == "HOSPITAL_ADMISSION" &&
        c.status == "PENDING") = none →
      admit_patient db now key hospital_id aadhar reason =
        .ok (dbAfterAdmit db now hospital patient reason,
             { success := true, message := "Admission request sent to patient",
               consent_id := db.nextId }) ∧
      (admissionConsentRow db now hospital patient reason).status = "PENDING" ∧
      (admissionConsentRow db now hospital patient reason).request_type = "HOSPITAL_ADMISSION" ∧
      (admissionConsentRow db now hospital patient reason).facility_name = hospital.name ∧
      (admissionConsentRow db now hospital patient reason).expires_at = some (now + 1 * 86400)) := by
  constructor
  · intro e he
    unfold admit_patient
    simp only [hh, hu, hpa, he]
  · intro hnone
    refine ⟨?_, rfl, rfl, rfl, rfl⟩
    unfold admit_patient
    simp only [hh, hu, hpa, hnone]
    rfl

/-- The patient of C8's witness, registered under the uid derived from the
sample secret. -/
def patientW8 : Patient :=
  { id := 1, first_name := some "Priya", middle_name := none, last_name := some "Shah",
    date_of_birth := some (1990, 6, 15), gender := some "F", blood_group := some "O+",
    phone_primary := some "9999999999",
    aadhar_uid := hexOfBytes (hmacSha256 (strBytes "server-key")
      (strBytes (stripSpacesDashes "123456789012"))) }

/-- The hospital of C8's witness. -/
def hospW8 : Hospital := { id := 5, name := "City Hospital" }

/-- C8's witness database: hospital and patient exist, no consents yet. -/
def dbW8 : DB :=
  { patients := [patientW8], doctors := [], hospitals := [hospW8],
    consents := [], doctorPatients := [], appointments := [], nextId := 30 }

/-- Witness for C8: admitting the sample patient at the sample hospital
creates one PENDING HOSPITAL_ADMISSION consent expiring 86400 s later. -/
theorem admit_patient_pending_or_one_day_witness :
    admit_patient dbW8 0 "server-key" 5 "123456789012" "checkup" =
      .ok (dbAfterAdmit dbW8 0 hospW8 patientW8 "checkup",
           { success := true, message := "Admission request sent to patient",
             consent_id := dbW8.nextId }) ∧
    (admissionConsentRow dbW8 0 hospW8 patientW8 "checkup").expires_at = some 86400 := by
  have hv : validate_aadhar "123456789012" = true := by decide
  have hu : generate_uid "server-key" "123456789012" = some patientW8.aadhar_uid := by
    unfold generate_uid
    rw [if_pos hv]
    rfl
  have hpa : dbW8.patients.find? (fun p => p.aadhar_uid == patientW8.aadhar_uid) =
      some patientW8 := by
    have hpred : (patientW8.aadhar_uid == patientW8.aadhar_uid) = true := by
      exact beq_self_eq_true _
    show List.find? (fun p => p.aadhar_uid == patientW8.aadhar_uid) [patientW8] = some patientW8
    rw [List.find?_singleton, if_pos hpred]
  have happ := admit_patient_pending_or_one_day dbW8 0 "server-key" 5 "123456789012" "checkup"
    hospW8 patientW8 patientW8.aadhar_uid (by decide) hu hpa
  have hmain := (happ.2 (by rfl)).1
  exact ⟨hmain, rfl⟩

/-- The IN_PROGRESS ADMISSION appointment created on approval of a
HOSPITAL_ADMISSION consent (named for reuse in statements; identical to the
literal in the definition). -/
def newAdmissionAppt (db : DB) (c : Consent) (now : Nat) (hospital : Hospital)
    (doctor : Doctor) : Appointment :=
  { id := db.nextId, patient_id := c.patient_id, doctor_id := doctor.id,
    hospital_id := hospital.id, date := now, time := strfHM now, type := "ADMISSION",
    department := "General", reason := c.description.getD "Hospital Admission",
    status := "IN_PROGRESS" }

theorem admissionFanout_appointments (db : DB) (c : Consent) (now : Nat) :
    (db.hospitals.find? (fun h => h.name == c.facility_name) = none →
      (admissionFanout db c now).appointments = db.appointments) ∧
    (∀ hospital, db.hospitals.find? (fun h => h.name == c.facility_name) = some hospital →
      (∀ a0, db.appointments.find? (fun a => a.patient_id == c.patient_id &&
          a.hospital_id == hospital.id && a.status == "IN_PROGRESS") = some a0 →
        (admissionFanout db c now).appointments = db.appointments) ∧
      (db.appointments.find? (fun a => a.patient_id == c.patient_id &&
          a.hospital_id == hospital.id && a.status == "IN_PROGRESS") = none →
        (db.doctors.find? (fun d => d.hospital_id == some hospital.id) = none →
          (admissionFanout db c now).appointments = db.appointments) ∧
        (∀ doctor, db.doctors.find? (fun d => d.hospital_id == some hospital.id) = some doctor →
          (admissionFanout db c now).appointments =
            db.appointments ++ [newAdmissionAppt db c now hospital doctor]))) := by
  constructor
  · intro h1
    unfold admissionFanout
    rw [h1]
  · intro hospital h1
    constructor
    · intro a0 h2
      unfold admissionFanout
      rw [h1]
      dsimp only
      rw [h2]
    · intro h2
      constructor
      · intro h3
        unfold admissionFanout
        rw [h1]
        dsimp only
        rw [h2]
        dsimp only
        rw [h3]
      · intro doctor h3
        unfold admissionFanout
        rw [h1]
        dsimp only
        rw [h2]
        dsimp only
        rw [h3]
        rfl

/-- The database after `update_consent_status` writes the new status and
`responded_at` into the stored consent row (the intermediate state before the
fan-out steps). -/
def dbAfterStatusWrite (db : DB) (now consent_id : Nat) (consent : Consent)
    (newStatus : String) : DB :=
  { db with consents := db.consents.map (fun c =>
      if c.id == consent_id then
        { consent with status := newStatus, responded_at := some now }
      else c) }

/-- C9: approving a PENDING HOSPITAL_ADMISSION consent always transitions it
to APPROVED (the stored row is updated), and as a side effect: when the
facility name resolves to a hospital with no IN_PROGRESS admission for the
(patient, hospital) pair and at least one doctor, exactly one new IN_PROGRESS
ADMISSION appointment is appended; when an IN_PROGRESS admission already
exists, or the hospital has no doctor, or no hospital matches the facility
name, the appointment table is unchanged but the approval still succeeds. -/
theorem approve_admission_encounter
    (db : DB) (now consent_id : Nat) (consent : Consent)
    (hfind : db.consents.find? (fun c => c.id == consent_id) = some consent)
    (hstat : consent.status = "PENDING")
    (htype : consent.request_type = "HOSPITAL_ADMISSION") :
    ∃ db', update_consent_status db now consent_id "APPROVED" =
        .ok (db', { consent with status := "APPROVED", responded_at := some now }) ∧
      db'.consents = db.consents.map (fun c =>
        if c.id == consent_id then
          { consent with status := "APPROVED", responded_at := some now }
        else c) ∧
      (db.hospitals.find? (fun h => h.name == consent.facility_name) = none →
        db'.appointments = db.appointments) ∧
      (∀ hospital, db.hospitals.find? (fun h => h.name == consent.facility_name) = some hospital →
        (∀ a0, db.appointments.find? (fun a => a.patient_id == consent.patient_id &&
            a.hospital_id == hospital.id && a.status == "IN_PROGRESS") = some a0 →
          db'.appointments = db.appointments) ∧
        (db.appointments.find? (fun a => a.patient_id == consent.patient_id &&
            a.hospital_id == hospital.id && a.status == "IN_PROGRESS") = none →
          (db.doctors.find? (fun d => d.hospital_id == some hospital.id) = none →
            db'.appointments = db.appointments) ∧
          (∀ doctor, db.doctors.find? (fun d => d.hospital_id == some hospital.id) = some doctor →
            db'.appointments = db.appointments ++
              [newAdmissionAppt db consent now hospital doctor] ∧
            (newAdmissionAppt db consent now hospital doctor).status = "IN_PROGRESS" ∧
            (newAdmissionAppt db consent now hospital doctor).patient_id = consent.patient_id ∧
            (newAdmissionAppt db consent now hospital doctor).hospital_id = hospital.id))) := by
  unfold update_consent_status
  simp only [hfind]
  have hg1 : (consent.status != "PENDING" &&
      !(consent.status == "APPROVED" && ("APPROVED" == "REVOKED"))) = false := by
    simp [hstat]
  have hg2 : (!(["APPROVED", "DENIED", "REVOKED"].contains "APPROVED")) = false := by
    decide
  have hT : (consent.request_type == "HOSPITAL_ADMISSION") = true := by
    simp [htype]
  simp only [hg1, hg2, Bool.false_eq_true, if_false, beq_self_eq_true, if_true, hT]
  have key := admissionFanout_appointments
    (dbAfterStatusWrite db now consent_id consent "APPROVED") consent now
  have keyp := admissionFanout_preserves
    (dbAfterStatusWrite db now consent_id consent "APPROVED") consent now
  refine ⟨_, rfl, ?_, ?_, ?_⟩
  · exact keyp.2.2.2.1
  · intro h1
    exact key.1 h1
  · intro hospital h1
    refine ⟨?_, ?_⟩
    · intro a0 h2
      exact (key.2 hospital h1).1 a0 h2
    · intro h2
      refine ⟨?_, ?_⟩
      · intro h3
        exact ((key.2 hospital h1).2 h2).1 h3
      · intro doctor h3
        refine ⟨?_, rfl, rfl, rfl⟩
        exact ((key.2 hospital h1).2 h2).2 doctor h3

/-- The hospital of C9's witness. -/
def hospW9 : Hospital := { id := 6, name := "Green Valley Hospital" }

/-- The attending doctor of C9's witness, employed by the hospital. -/
def docW9 : Doctor :=
  { id := 8, title := "Dr.", first_name := "Ben", last_name := "Kim", hospital_id := some 6 }

/-- The PENDING HOSPITAL_ADMISSION consent of C9's witness. -/
def cW9 : Consent :=
  { id := 1, patient_id := 1, facility_name := "Green Valley Hospital",
    request_type := "HOSPITAL_ADMISSION", description := some "r", status := "PENDING",
    requested_at := 0, responded_at := none, expires_at := none }

/-- C9's witness database: hospital with one doctor, no active admission. -/
def dbW9 : DB :=
  { patients := [samplePatient], doctors := [docW9], hospitals := [hospW9],
    consents := [cW9], doctorPatients := [], appointments := [], nextId := 70 }

/-- Witness for C9: approving the admission consent creates exactly one
IN_PROGRESS admission appointment. -/
theorem approve_admission_encounter_witness :
    ∃ db', update_consent_status dbW9 7 1 "APPROVED" =
        .ok (db', { cW9 with status := "APPROVED", responded_at := some 7 }) ∧
      db'.appointments = dbW9.appointments ++ [newAdmissionAppt dbW9 cW9 7 hospW9 docW9] := by
  obtain ⟨db', h1, h2, h3, h4⟩ := approve_admission_encounter dbW9 7 1 cW9 (by decide) rfl rfl
  have h5 := ((h4 hospW9 (by decide)).2 (by decide)).2 docW9 (by decide)
  exact ⟨db', h1, h5.1⟩

theorem buildPatientRow_spec (db : DB) (today : Nat × Nat × Nat) (rel : DoctorPatient) :
    (buildPatientRow db today rel).status = rel.status ∧
    (rel.status ≠ "ACTIVE" →
      (buildPatientRow db today rel).patient_age = none ∧
      (buildPatientRow db today rel).patient_gender = none ∧
      (buildPatientRow db today rel).patient_blood_group = none ∧
      (buildPatientRow db today rel).patient_phone = none) ∧
    (∀ p, db.patients.find? (fun q => q.id == rel.patient_id) = some p →
      (rel.status = "ACTIVE" →
        (buildPatientRow db today rel).patient_age =
          p.date_of_birth.map (fun dob => (today.1 : Int) - (dob.1 : Int) -
            (if tupleLtMD today.2.1 today.2.2 dob.2.1 dob.2.2 then 1 else 0)) ∧
        (buildPatientRow db today rel).patient_gender = p.gender ∧
        (buildPatientRow db today rel).patient_blood_group = p.blood_group ∧
        (buildPatientRow db today rel).patient_phone = p.phone_primary) ∧
      (buildPatientRow db today rel).patient_name =
        (if (nameParts p).isEmpty then "Unknown Patient"
         else String.intercalate " " (nameParts p))) := by
  unfold buildPatientRow
  cases hpat : db.patients.find? (fun q => q.id == rel.patient_id) with
  | none =>
    dsimp only
    by_cases hact : (rel.status == "ACTIVE") = true
    · rw [if_pos hact]
      refine ⟨rfl, ?_, ?_⟩
      · intro _
        exact ⟨rfl, rfl, rfl, rfl⟩
      · intro p hp
        cases hp
    · rw [if_neg hact]
      refine ⟨rfl, ?_, ?_⟩
      · intro _
        exact ⟨rfl, rfl, rfl, rfl⟩
      · intro p hp
        cases hp
  | some p0 =>
    dsimp only
    by_cases hact : (rel.status == "ACTIVE") = true
    · rw [if_pos hact]
      refine ⟨rfl, ?_, ?_⟩
      · intro hne
        exact absurd (beq_iff_eq.mp hact) hne
      · intro p hp
        injection hp with hp
        subst hp
        exact ⟨fun _ => ⟨rfl, rfl, rfl, rfl⟩, rfl⟩
    · rw [if_neg hact]
      refine ⟨rfl, ?_, ?_⟩
      · intro _
        exact ⟨rfl, rfl, rfl, rfl⟩
      · intro p hp
        injection hp with hp
        subst hp
        refine ⟨?_, rfl⟩
        intro h
        rw [h] at hact
        simp at hact

/-- C5: every row returned by `GET /doctors/{id}/patients` comes from one of
the doctor's relationship rows; its detailed clinical fields (age, gender,
blood group, phone) are the patient record's values exactly when the row
status is ACTIVE and are null otherwise; the age is
`today.year - dob.year` minus 1 when (today.month, today.day) lexicographically
precedes (dob.month, dob.day); and the display name is the present name parts
joined by single spaces, falling back to "Unknown Patient". -/
theorem get_doctor_patients_row_policy
    (db : DB) (today : Nat × Nat × Nat) (did : Nat) (row : DoctorPatientResponse)
    (hrow : row ∈ get_doctor_patients db today did) :
    ∃ rel, rel ∈ db.doctorPatients ∧ rel.doctor_id = did ∧
      row = buildPatientRow db today rel ∧
      (row.status ≠ "ACTIVE" →
        row.patient_age = none ∧ row.patient_gender = none ∧
        row.patient_blood_group = none ∧ row.patient_phone = none) ∧
      (∀ p, db.patients.find? (fun q => q.id == rel.patient_id) = some p →
        (row.status = "ACTIVE" →
          row.patient_age = p.date_of_birth.map (fun dob => (today.1 : Int) - (dob.1 : Int) -
            (if tupleLtMD today.2.1 today.2.2 dob.2.1 dob.2.2 then 1 else 0)) ∧
          row.patient_gender = p.gender ∧
          row.patient_blood_group = p.blood_group ∧
          row.patient_phone = p.phone_primary) ∧
        row.patient_name = (if (nameParts p).isEmpty then "Unknown Patient"
          else String.intercalate " " (nameParts p))) := by
  unfold get_doctor_patients at hrow
  rw [List.mem_map] at hrow
  obtain ⟨rel, hmem, heq⟩ := hrow
  rw [List.mem_insertionSort, List.mem_filter] at hmem
  obtain ⟨hmem, hdid⟩ := hmem
  have hs := buildPatientRow_spec db today rel
  subst heq
  refine ⟨rel, hmem, beq_iff_eq.mp hdid, rfl, ?_, ?_⟩
  · intro h
    exact hs.2.1 (by rw [← hs.1]; exact h)
  · intro p hp
    have h3 := hs.2.2 p hp
    exact ⟨fun h => h3.1 (by rw [← hs.1]; exact h), h3.2⟩

/-- The ACTIVE relationship row of C5's witness. -/
def dpW5 : DoctorPatient :=
  { id := 3, doctor_id := 2, patient_id := 1, status := "ACTIVE",
    condition := some "Under care", next_appointment := none, last_visit := none,
    emergency_flag := false, assigned_at := 0 }

/-- C5's witness database: one patient, one ACTIVE relationship. -/
def dbW5 : DB :=
  { patients := [samplePatient], doctors := [sampleDoctor], hospitals := [],
    consents := [], doctorPatients := [dpW5], appointments := [], nextId := 80 }

/-- The response row of C5's witness. -/
def rowW5 : DoctorPatientResponse := buildPatientRow dbW5 (2024, 5, 1) dpW5

/-- Witness for C5 at the concrete ACTIVE relationship. -/
theorem get_doctor_patients_row_policy_witness :
    ∃ rel, rel ∈ dbW5.doctorPatients ∧ rel.doctor_id = 2 ∧
      rowW5 = buildPatientRow dbW5 (2024, 5, 1) rel ∧
      (rowW5.status ≠ "ACTIVE" →
        rowW5.patient_age = none ∧ rowW5.patient_gender = none ∧
        rowW5.patient_blood_group = none ∧ rowW5.patient_phone = none) ∧
      (∀ p, dbW5.patients.find? (fun q => q.id == rel.patient_id) = some p →
        (rowW5.status = "ACTIVE" →
          rowW5.patient_age = p.date_of_birth.map (fun dob => ((2024 : Nat) : Int) - (dob.1 : Int) -
            (if tupleLtMD 5 1 dob.2.1 dob.2.2 then 1 else 0)) ∧
          rowW5.patient_gender = p.gender ∧
          rowW5.patient_blood_group = p.blood_group ∧
          rowW5.patient_phone = p.phone_primary) ∧
        rowW5.patient_name = (if (nameParts p).isEmpty then "Unknown Patient"
          else String.intercalate " " (nameParts p))) :=
  get_doctor_patients_row_policy dbW5 (2024, 5, 1) 2 rowW5 (by decide)

end CloudCare
